import Mathlib

/-!
Verification of the liquid-level widget core
(`ui-ngx/src/app/modules/home/components/widget/lib/indicator/liquid-level-widget.component.ts`).

The component is shallowly embedded: JavaScript numbers become `ℚ`,
dynamically-typed telemetry values become the `JSValue` sum type, and the
DOM/collaborator side effects of each method become explicit output records
(which color processors were updated with which value, which attribute of
which element was moved where, and so on).  Display-time decimal formatting
(`toFixed`) is not modelled: readouts are kept as the exact value or the
distinguished "N/A" marker, which is what the claims talk about.

Definitions imported by the component from
`liquid-level-widget.models.ts` (not part of the sources) are modelled from
the spec and marked as such in their doc comments.
-/

namespace LiquidLevel

/-- A dynamically typed JavaScript value as it arrives on the data stream:
a number, a string, `null` or `undefined`. -/
inductive JSValue where
  | num (v : ℚ)
  | str (s : String)
  | null
  | undef
  deriving DecidableEq, Repr

/-- Embedding of `isDefinedAndNotNull` from `@core/utils`: true unless the
value is `null` or `undefined`. -/
def isDefinedAndNotNull : JSValue → Bool
  | JSValue.null => false
  | JSValue.undef => false
  | _ => true

/-- Embedding of `isNumber` from `@core/utils`: true exactly on numeric
values. -/
def isNumber : JSValue → Bool
  | JSValue.num _ => true
  | _ => false

/-- The numeric payload of a `JSValue`; only ever read under an
`isNumber` guard, mirroring the source's use after the `isNumber` check. -/
def JSValue.toQ : JSValue → ℚ
  | JSValue.num v => v
  | _ => 0

/-- Modelled from the spec: `CapacityUnits` of
`liquid-level-widget.models.ts` (missing from the sources) — an enumerated
volume unit (liter family, gallon family) plus the distinguished "percent"
pseudo-unit. -/
inductive CapacityUnits where
  | percent
  | liters
  | milliliters
  | gallons
  deriving DecidableEq, Repr

/-- Modelled from the spec: `ConversionType` of
`liquid-level-widget.models.ts` (missing from the sources) — the conversion
direction.  The source names the constructors `to` and `from`; those are
Lean keywords, so they are called `toNorm` and `fromNorm` here. -/
inductive ConversionType where
  | toNorm
  | fromNorm
  deriving DecidableEq, Repr

/-- Modelled from the spec: the fixed liters-per-unit factor of each
physical unit ("percent" never reaches this table). -/
def litersPerUnit : CapacityUnits → ℚ
  | CapacityUnits.percent => 1
  | CapacityUnits.liters => 1
  | CapacityUnits.milliliters => 1 / 1000
  | CapacityUnits.gallons => 378541 / 100000

/-- Modelled from the spec: `convertLiters` of
`liquid-level-widget.models.ts` (missing from the sources).  If the unit is
the percent pseudo-unit the function is the identity regardless of
direction; otherwise `to`-normalized multiplies by the unit's fixed
liters-per-unit factor and `from`-normalized divides by it.  No clamping or
rounding. -/
def convertLiters (value : ℚ) (unit : CapacityUnits) (type : ConversionType) : ℚ :=
  if unit = CapacityUnits.percent then
    value
  else
    match type with
    | ConversionType.toNorm => value * litersPerUnit unit
    | ConversionType.fromNorm => value / litersPerUnit unit

/-- Modelled from the spec: the vessel-shape identifiers (`Shapes` of
`liquid-level-widget.models.ts`, missing from the sources); a closed set of
geometric variants, of which the component's code distinguishes only the
vertical cylinder. -/
inductive Shapes where
  | vCylinder
  | hCylinder
  | rectangle
  deriving DecidableEq, Repr

/-- Embedding of `SvgLimits`: the coordinate pair (liquid-surface position
at 0% fill, position at 100% fill). -/
structure SvgLimits where
  min : ℚ
  max : ℚ
  deriving DecidableEq, Repr

/-- Embedding of `SvgInfo`: the per-shape SVG template reference together
with its coordinate limits. -/
structure SvgInfo where
  svg : String
  limits : SvgLimits
  deriving DecidableEq, Repr

/-- Embedding of `LiquidWidgetDataSourceType`: whether a configured value
comes from static configuration or from an entity attribute. -/
inductive LiquidWidgetDataSourceType where
  | static
  | attribute
  deriving DecidableEq, Repr

/-- Embedding of `LevelCardLayout`: which numeric overlay(s) render.  The
source's third variant (neither percentage nor absolute) is called
`simple` here. -/
inductive LevelCardLayout where
  | absolute
  | percentage
  | simple
  deriving DecidableEq, Repr

/-- The fields of `LevelCardWidgetSettings` that the verified core reads
(an immutable configuration snapshot). -/
structure LevelCardWidgetSettings where
  tankSelectionType : LiquidWidgetDataSourceType
  selectedShape : Shapes
  shapeAttributeName : String
  volumeSource : LiquidWidgetDataSourceType
  volumeConstant : ℚ
  volumeAttributeName : String
  volumeUnits : CapacityUnits
  widgetUnitsSource : LiquidWidgetDataSourceType
  widgetUnitsAttributeName : String
  units : CapacityUnits
  datasourceUnits : CapacityUnits
  layout : LevelCardLayout
  decimals : ℕ
  showTooltip : Bool
  showTooltipLevel : Bool
  showTooltipDate : Bool
  tooltipUnits : CapacityUnits
  tooltipLevelDecimals : ℕ
  deriving DecidableEq, Repr

/-- The per-instance fields of the component that the conversion and
update methods read: the settings snapshot, the resolved vessel capacity
`volume`, the resolved display unit `widgetUnits`, the resolved `shape`
and the `svgParams.limits` of that shape. -/
structure WidgetCore where
  settings : LevelCardWidgetSettings
  volume : ℚ
  widgetUnits : CapacityUnits
  shape : Shapes
  limits : SvgLimits
  deriving DecidableEq, Repr

/-- Embedding of `convertInputData`: when the data source's unit is not
the percent pseudo-unit, the to-normalized reading divided by the
to-normalized vessel capacity, times 100; otherwise the identity. -/
def convertInputData (st : WidgetCore) (value : ℚ) : ℚ :=
  if st.settings.datasourceUnits ≠ CapacityUnits.percent then
    (convertLiters value st.settings.datasourceUnits ConversionType.toNorm /
      convertLiters st.volume st.settings.volumeUnits ConversionType.toNorm) * 100
  else
    value

/-- Embedding of `convertOutputData`: when the display unit is not the
percent pseudo-unit, the to-normalized volume of the given percentage of
the vessel capacity; otherwise the identity. -/
def convertOutputData (st : WidgetCore) (value : ℚ) : ℚ :=
  if st.widgetUnits ≠ CapacityUnits.percent then
    convertLiters (st.volume * (value / 100)) st.settings.volumeUnits
      ConversionType.toNorm
  else
    value

/-- Embedding of `convertTooltipData`: normalize the raw value to a
percentage, then convert it into the tooltip unit unless the tooltip unit
is the percent pseudo-unit. -/
def convertTooltipData (st : WidgetCore) (value : ℚ) : ℚ :=
  let percentage := convertInputData st value
  if st.settings.tooltipUnits ≠ CapacityUnits.percent then
    let liters := convertOutputData st percentage
    convertLiters liters st.settings.tooltipUnits ConversionType.fromNorm
  else
    percentage

/-- Embedding of `calculatePosition`: clamp to `limits.max` at or above
100, to `limits.min` at or below 0, and interpolate linearly in between. -/
def calculatePosition (percentage : ℚ) (limits : SvgLimits) : ℚ :=
  if percentage ≥ 100 then
    limits.max
  else if percentage ≤ 0 then
    limits.min
  else
    limits.min + (percentage / 100) * (limits.max - limits.min)

/-- An `EntityId` as the component builds it from the first datasource:
only the `id` string matters to the resolver. -/
structure EntityId where
  entityType : String
  id : String
  deriving DecidableEq, Repr

/-- Modelled from the spec: `NULL_UUID` of `@shared/models/id/has-uuid`
(missing from the sources) — the null/placeholder entity identity. -/
def NULL_UUID : String := "13814000-1dd2-11b2-8080-808080808080"

/-- Modelled from the spec: `extractValue` of
`liquid-level-widget.models.ts` (missing from the sources) — read the named
attribute out of a fetch response, falling back to the given default when
it is absent (the MissingAttribute recovery of the spec). -/
def extractValue {α : Type} (attributes : List (String × α)) (name : String)
    (fallback : α) : α :=
  match attributes.find? (fun a => a.1 = name) with
  | some a => a.2
  | none => fallback

/-- Embedding of `getShape`: resolve the vessel shape and log the attribute
fetches issued (the `attributeService` collaborator is the `fetchAttrs`
oracle; the first component of the result lists one entry per fetch, each
entry holding the requested attribute names).  A fetch happens only for an
attribute-driven shape on a real (non-placeholder) entity; otherwise the
statically configured shape is used with no fetch. -/
def getShape (settings : LevelCardWidgetSettings) (entityId : EntityId)
    (fetchAttrs : List String → List (String × Shapes)) :
    List (List String) × Shapes :=
  if settings.tankSelectionType = LiquidWidgetDataSourceType.attribute ∧
      entityId.id ≠ NULL_UUID then
    let attributes := fetchAttrs [settings.shapeAttributeName]
    ([[settings.shapeAttributeName]],
      extractValue attributes settings.shapeAttributeName settings.selectedShape)
  else
    ([], settings.selectedShape)

/-- Embedding of `prepareAttributeNames`: the attribute names actually
needed — the volume attribute when the volume source is not static, and the
units attribute when the units source is not static. -/
def prepareAttributeNames (settings : LevelCardWidgetSettings) : List String :=
  let names : List String := []
  let names := if settings.volumeSource ≠ LiquidWidgetDataSourceType.static then
    names ++ [settings.volumeAttributeName] else names
  let names := if settings.widgetUnitsSource ≠ LiquidWidgetDataSourceType.static then
    names ++ [settings.widgetUnitsAttributeName] else names
  names

/-- Embedding of `getSecondaryResources`: resolve the vessel volume and the
display units and log the attribute fetches issued.  When no attribute name
is needed or the entity is the placeholder identity, the static constants
are returned with no fetch; otherwise one combined fetch is issued and each
field falls back to its static constant when absent.  The `fetchAttrs`
oracle returns the dynamically typed response viewed at the two result
types. -/
def getSecondaryResources (settings : LevelCardWidgetSettings)
    (entityId : EntityId)
    (fetchAttrs : List String → List (String × ℚ) × List (String × CapacityUnits)) :
    List (List String) × ℚ × CapacityUnits :=
  let attributeNames := prepareAttributeNames settings
  if attributeNames.length = 0 ∨ entityId.id = NULL_UUID then
    ([], settings.volumeConstant, settings.units)
  else
    let attributes := fetchAttrs attributeNames
    ([attributeNames],
      extractValue attributes.1 settings.volumeAttributeName settings.volumeConstant,
      extractValue attributes.2 settings.widgetUnitsAttributeName settings.units)

/-- Embedding of `getData`, parametrized by the `svgMapping` lookup result
for the resolved shape: with a template, load its SVG and resolve the
secondary resources; with no template, yield `null` (`none`). -/
def getData (svgLookup : Option SvgInfo) (loadSVG : String → String)
    (secondary : ℚ × CapacityUnits) :
    Option (String × ℚ × CapacityUnits) :=
  match svgLookup with
  | some params => some (loadSVG params.svg, secondary)
  | none => none

/-- The only piece of instance state the `update` guard reads: whether
`ngOnInit` has rendered an SVG into the container (`this.svg` set). -/
structure InitState where
  svgRendered : Bool
  deriving DecidableEq, Repr

/-- Embedding of the `ngOnInit` subscription body: a `null` result from
`getData` leaves the instance untouched; otherwise the SVG markup is
rendered when it is a nonempty string. -/
def ngOnInitApply (s : InitState)
    (data : Option (String × ℚ × CapacityUnits)) : InitState :=
  match data with
  | some d => { svgRendered := d.1 ≠ "" }
  | none => s

/-- A DOM element bearing the `tb-liquid-surface` class; the only property
the component reads back is whether it also has the `tb-liquid` class. -/
structure SurfaceElem where
  isLiquid : Bool
  deriving DecidableEq, Repr

/-- One positional mutation applied to a DOM element: which attribute is
set (or animated) and to which coordinate. -/
structure Move where
  attr : String
  pos : ℚ
  deriving DecidableEq, Repr

/-- Output of `updateLevel`: the value pushed into the liquid color
processor, the move applied to the `.tb-liquid-fill` body, the move applied
to each `.tb-liquid-surface` element, which of those surfaces receive the
liquid fill color (the `tb-liquid`-classed ones), and whether the moves are
animated. -/
structure LevelOut where
  liquidColorValue : ℚ
  fillMove : Move
  surfaceMoves : List Move
  surfaceColored : List Bool
  animated : Bool
  deriving DecidableEq, Repr

/-- Embedding of `updateLevel`: surfaces of the vertical cylinder move via
the `cy` attribute, all other surfaces and the fill body via `y`, all to
the same coordinate `newY`; immediate when `ignoreAnimation`, otherwise a
500 ms animation. -/
def updateLevel (shape : Shapes) (newY : ℚ) (percentage : ℚ)
    (surfaces : List SurfaceElem) (ignoreAnimation : Bool) : LevelOut :=
  let surfacePositionAttr := if shape ≠ Shapes.vCylinder then "y" else "cy"
  { liquidColorValue := percentage
    fillMove := { attr := "y", pos := newY }
    surfaceMoves := surfaces.map fun _ => { attr := surfacePositionAttr, pos := newY }
    surfaceColored := surfaces.map fun e => e.isLiquid
    animated := !ignoreAnimation }

/-- Output of `updateSvg`: the computed coordinate, the value pushed into
the tank color processor by `updateShapeColor`, and the level mutations. -/
structure SvgUpdateOut where
  newYPos : ℚ
  tankColorValue : ℚ
  levelOut : LevelOut
  deriving DecidableEq, Repr

/-- Embedding of `updateSvg`: compute the coordinate from the percentage
and the shape limits, recolor the shape from the percentage, then move the
liquid. -/
def updateSvg (st : WidgetCore) (percentage : ℚ)
    (surfaces : List SurfaceElem) (ignoreAnimation : Bool) : SvgUpdateOut :=
  let yLimits : SvgLimits := { min := st.limits.min, max := st.limits.max }
  let newYPos := calculatePosition percentage yLimits
  { newYPos := newYPos
    tankColorValue := percentage
    levelOut := updateLevel st.shape newYPos percentage surfaces ignoreAnimation }

/-- A displayed numeric readout: either the source's string `N/A` or a
numeric value still to be decimal-formatted (`toFixed` is display-time
formatting and is not modelled). -/
inductive Readout where
  | na
  | num (v : ℚ)
  deriving DecidableEq, Repr

/-- The content written into the numeric overlay container, by layout:
`createAbsoluteLayout` receives the readout and the vessel volume converted
into display units; `createPercentLayout` receives the readout alone. -/
inductive ContainerContent where
  | absoluteLayout (inputValue : Readout) (volume : ℚ)
  | percentLayout (inputValue : Readout)
  deriving DecidableEq, Repr

/-- Output of `updateValueElement`: the readout, the value pushed into the
value color processor, the percentage pushed into the background-overlay
color processor, and the overlay content (none for the plain layout). -/
structure ValueOut where
  value : Readout
  valueColorValue : Readout
  backgroundOverlayValue : ℚ
  containerContent : Option ContainerContent
  deriving DecidableEq, Repr

/-- Embedding of `updateValueElement`: the readout is `N/A` unless the raw
datum is numeric, in which case the percentage is converted back into the
display unit; the overlay content depends on the layout mode. -/
def updateValueElement (st : WidgetCore) (data : JSValue) (percentage : ℚ) :
    ValueOut :=
  let value : Readout :=
    if isNumber data then
      Readout.num (convertLiters (convertOutputData st percentage) st.widgetUnits
        ConversionType.fromNorm)
    else
      Readout.na
  let content : Option ContainerContent :=
    if st.settings.layout = LevelCardLayout.absolute then
      let volumeInLiters := convertLiters st.volume st.settings.volumeUnits
        ConversionType.toNorm
      let volume := convertLiters volumeInLiters st.widgetUnits
        ConversionType.fromNorm
      some (ContainerContent.absoluteLayout value volume)
    else if st.settings.layout = LevelCardLayout.percentage then
      some (ContainerContent.percentLayout value)
    else
      none
  { value := value
    valueColorValue := value
    backgroundOverlayValue := percentage
    containerContent := content }

/-- Output of `getTooltipContent`: the level value (with whether a unit
conversion was performed to obtain it), the timestamp pushed into the
date-format collaborator, and the two independently toggled rows. -/
structure TooltipOut where
  tooltipValue : Readout
  conversionAttempted : Bool
  dateUpdatedWith : ℚ
  levelRow : Option Readout
  dateRowShown : Bool
  deriving DecidableEq, Repr

/-- Embedding of `getTooltipContent`: an absent measurement becomes the
pair `[0, blank]`, whose value is non-numeric, so the level value is `N/A`
with no unit conversion and the date collaborator is updated with 0. -/
def getTooltipContent (st : WidgetCore) (value : Option (ℚ × JSValue)) :
    TooltipOut :=
  let contentValue := value.getD (0, JSValue.str "")
  let tooltipValue : Readout :=
    if isNumber contentValue.2 then
      Readout.num (convertTooltipData st contentValue.2.toQ)
    else
      Readout.na
  { tooltipValue := tooltipValue
    conversionAttempted := isNumber contentValue.2
    dateUpdatedWith := contentValue.1
    levelRow := if st.settings.showTooltipLevel then some tooltipValue else none
    dateRowShown := st.settings.showTooltipDate }

/-- The visual effects of one `updateData` tick: the SVG mutations, the
readout mutations and the tooltip refresh, each absent when the
corresponding method was not invoked. -/
structure UpdateOut where
  svgOut : Option SvgUpdateOut
  valueOut : Option ValueOut
  tooltipOut : Option TooltipOut
  deriving DecidableEq, Repr

/-- The output of a tick that performs no visual mutation at all. -/
def noMutations : UpdateOut :=
  { svgOut := none, valueOut := none, tooltipOut := none }

/-- Embedding of `updateData`: read the first datum; when its value is
defined and non-null, compute the percentage (0 for a non-numeric value),
update the SVG and the readout, and refresh the tooltip when enabled;
otherwise do nothing. -/
def updateData (st : WidgetCore) (data : Option (ℚ × JSValue))
    (surfaces : List SurfaceElem) (ignoreAnimation : Bool) : UpdateOut :=
  match data with
  | some d =>
    if isDefinedAndNotNull d.2 then
      let percentage := if isNumber d.2 then convertInputData st d.2.toQ else 0
      { svgOut := some (updateSvg st percentage surfaces ignoreAnimation)
        valueOut := some (updateValueElement st d.2 percentage)
        tooltipOut :=
          if st.settings.showTooltip then some (getTooltipContent st (some d))
          else none }
    else
      noMutations
  | none => noMutations

/-- Embedding of `update`: a guard on the rendered SVG — without it the
call performs nothing. -/
def update (s : InitState) (st : WidgetCore) (data : Option (ℚ × JSValue))
    (surfaces : List SurfaceElem) (ignoreAnimation : Bool) : UpdateOut :=
  if s.svgRendered then updateData st data surfaces ignoreAnimation
  else noMutations

/-- A fixed concrete configuration used by the closed witness and
counterexample theorems: a 200 L vertical-cylinder vessel fed percent
readings, percentage layout, tooltip enabled with both rows. -/
def exampleCore : WidgetCore :=
  { settings :=
      { tankSelectionType := LiquidWidgetDataSourceType.static
        selectedShape := Shapes.vCylinder
        shapeAttributeName := "tankShape"
        volumeSource := LiquidWidgetDataSourceType.static
        volumeConstant := 200
        volumeAttributeName := "tankVolume"
        volumeUnits := CapacityUnits.liters
        widgetUnitsSource := LiquidWidgetDataSourceType.static
        widgetUnitsAttributeName := "tankUnits"
        units := CapacityUnits.liters
        datasourceUnits := CapacityUnits.percent
        layout := LevelCardLayout.percentage
        decimals := 0
        showTooltip := true
        showTooltipLevel := true
        showTooltipDate := true
        tooltipUnits := CapacityUnits.percent
        tooltipLevelDecimals := 0 }
    volume := 200
    widgetUnits := CapacityUnits.percent
    shape := Shapes.vCylinder
    limits := ⟨180, 20⟩ }

end LiquidLevel

namespace LiquidLevel

/-- C1: `calculatePosition` returns `limits.max` exactly when the
percentage is at least 100, `limits.min` exactly when it is at most 0, and
the linear interpolation `limits.min + (p/100) * (limits.max - limits.min)`
strictly in between, for any ordering of `min` and `max`. -/
theorem calculatePosition_cases (p : ℚ) (limits : SvgLimits) :
    (p ≥ 100 → calculatePosition p limits = limits.max) ∧
    (p ≤ 0 → calculatePosition p limits = limits.min) ∧
    (0 < p → p < 100 →
      calculatePosition p limits =
        limits.min + (p / 100) * (limits.max - limits.min)) := by
  refine ⟨fun h => ?_, fun h => ?_, fun h1 h2 => ?_⟩
  · simp [calculatePosition, h]
  · have hlt : ¬ p ≥ 100 := by linarith
    simp [calculatePosition, hlt, h]
  · have hlt : ¬ p ≥ 100 := by linarith
    have hgt : ¬ p ≤ 0 := by linarith
    simp [calculatePosition, hlt, hgt]

/-- Witness for C1 at concrete inputs: 150% clamps to max, -5% clamps to
min, 50% interpolates, with limits (180, 20). -/
theorem calculatePosition_cases_witness :
    calculatePosition 150 ⟨180, 20⟩ = (20 : ℚ) ∧
    calculatePosition (-5) ⟨180, 20⟩ = (180 : ℚ) ∧
    calculatePosition 50 ⟨180, 20⟩ =
      (180 : ℚ) + (50 / 100) * ((20 : ℚ) - 180) := by
  refine ⟨?_, ?_, ?_⟩
  · exact (calculatePosition_cases 150 ⟨180, 20⟩).1 (by norm_num)
  · exact (calculatePosition_cases (-5) ⟨180, 20⟩).2.1 (by norm_num)
  · exact (calculatePosition_cases 50 ⟨180, 20⟩).2.2 (by norm_num) (by norm_num)

/-- On `[0, 100]`, `calculatePosition` never drops below the interpolated
floor when the span is nonnegative: helper for the monotonicity theorem. -/
theorem calculatePosition_le_of_le (limits : SvgLimits) {p q : ℚ}
    (hp0 : 0 ≤ p) (hq100 : q ≤ 100) (hpq : p ≤ q)
    (hd : limits.min ≤ limits.max) :
    calculatePosition p limits ≤ calculatePosition q limits := by
  have hspan : (0 : ℚ) ≤ limits.max - limits.min := sub_nonneg.mpr hd
  have hip : p / 100 * (limits.max - limits.min) ≤ limits.max - limits.min := by
    have h1 : p / 100 ≤ 1 := by linarith
    simpa using mul_le_mul_of_nonneg_right h1 hspan
  have hiq : 0 ≤ q / 100 * (limits.max - limits.min) := by
    have h1 : 0 ≤ q / 100 := by linarith
    exact mul_nonneg h1 hspan
  have hipq : p / 100 * (limits.max - limits.min) ≤
      q / 100 * (limits.max - limits.min) := by
    have h1 : p / 100 ≤ q / 100 := by linarith
    exact mul_le_mul_of_nonneg_right h1 hspan
  unfold calculatePosition
  split_ifs <;> linarith

/-- C8: with `min ≠ max`, `calculatePosition` hits `min` exactly at 0 and
`max` exactly at 100 (also when `min > max`), is non-decreasing on
`[0, 100]` when `max > min`, and non-increasing there when `max < min`. -/
theorem calculatePosition_monotone (limits : SvgLimits)
    (hne : limits.min ≠ limits.max) :
    calculatePosition 0 limits = limits.min ∧
    calculatePosition 100 limits = limits.max ∧
    (limits.min < limits.max →
      MonotoneOn (fun p => calculatePosition p limits) (Set.Icc 0 100)) ∧
    (limits.max < limits.min →
      AntitoneOn (fun p => calculatePosition p limits) (Set.Icc 0 100)) := by
  refine ⟨?_, ?_, fun hlt => ?_, fun hgt => ?_⟩
  · simp [calculatePosition]
  · simp [calculatePosition]
  · intro p hp q hq hpq
    exact calculatePosition_le_of_le limits hp.1 hq.2 hpq (le_of_lt hlt)
  · intro p hp q hq hpq
    have hflip : calculatePosition p ⟨-limits.min, -limits.max⟩ ≤
        calculatePosition q ⟨-limits.min, -limits.max⟩ :=
      calculatePosition_le_of_le ⟨-limits.min, -limits.max⟩ hp.1 hq.2 hpq
        (by simpa using le_of_lt hgt)
    have hnegp : calculatePosition p ⟨-limits.min, -limits.max⟩ =
        -(calculatePosition p limits) := by
      unfold calculatePosition
      split_ifs <;> ring
    have hnegq : calculatePosition q ⟨-limits.min, -limits.max⟩ =
        -(calculatePosition q limits) := by
      unfold calculatePosition
      split_ifs <;> ring
    rw [hnegp, hnegq] at hflip
    simpa using neg_le_neg_iff.mp hflip

/-- C2: `convertInputData` is the identity when the data source's unit is
the percent pseudo-unit, and otherwise equals the to-normalized reading
divided by the to-normalized vessel capacity, times 100. -/
theorem convertInputData_spec (st : WidgetCore) (v : ℚ) :
    (st.settings.datasourceUnits = CapacityUnits.percent →
      convertInputData st v = v) ∧
    (st.settings.datasourceUnits ≠ CapacityUnits.percent →
      convertInputData st v =
        (convertLiters v st.settings.datasourceUnits ConversionType.toNorm /
          convertLiters st.volume st.settings.volumeUnits
            ConversionType.toNorm) * 100) := by
  constructor
  · intro h
    simp [convertInputData, h]
  · intro h
    simp [convertInputData, h]

/-- Witness for C2: Scenario B of the spec — data source in liters, a
200 L vessel and a 50 L reading give 25%, and a percent data source is
passed through unchanged. -/
theorem convertInputData_spec_witness :
    convertInputData
      { settings :=
          { tankSelectionType := LiquidWidgetDataSourceType.static
            selectedShape := Shapes.vCylinder
            shapeAttributeName := "tankShape"
            volumeSource := LiquidWidgetDataSourceType.static
            volumeConstant := 200
            volumeAttributeName := "tankVolume"
            volumeUnits := CapacityUnits.liters
            widgetUnitsSource := LiquidWidgetDataSourceType.static
            widgetUnitsAttributeName := "tankUnits"
            units := CapacityUnits.percent
            datasourceUnits := CapacityUnits.liters
            layout := LevelCardLayout.percentage
            decimals := 0
            showTooltip := false
            showTooltipLevel := false
            showTooltipDate := false
            tooltipUnits := CapacityUnits.percent
            tooltipLevelDecimals := 0 }
        volume := 200
        widgetUnits := CapacityUnits.percent
        shape := Shapes.vCylinder
        limits := ⟨180, 20⟩ } 50 =
      (convertLiters 50 CapacityUnits.liters ConversionType.toNorm /
        convertLiters 200 CapacityUnits.liters ConversionType.toNorm) * 100 := by
  exact (convertInputData_spec _ 50).2 (by decide)

/-- C3 counterexample: with the concrete measurement value `"foo"` (defined
but non-numeric) the visual-position update is not skipped — `updateSvg`
runs at percentage 0 — and with an absent measurement the readout is not
updated at all, so no "not available" text is shown. -/
theorem skipPosition_claim_false :
    (updateData exampleCore (some (1700000000000, JSValue.str "foo"))
        [{ isLiquid := true }] false).svgOut =
      some (updateSvg exampleCore 0 [{ isLiquid := true }] false) ∧
    (updateData exampleCore none [{ isLiquid := true }] false).valueOut =
      none := by
  exact ⟨rfl, rfl⟩

/-- C3 (amended): a defined but non-numeric value does not skip the
visual-position update — the update runs with percentage 0 while the
readout shows "not available"; an absent (undefined/null) value skips the
whole tick, label included; neither case is fatal. -/
theorem invalidMeasurement_handling (st : WidgetCore) (ts : ℚ) (v : JSValue)
    (surfaces : List SurfaceElem) (ia : Bool) :
    (isDefinedAndNotNull v = true → isNumber v = false →
      (updateData st (some (ts, v)) surfaces ia).svgOut =
          some (updateSvg st 0 surfaces ia) ∧
      ((updateData st (some (ts, v)) surfaces ia).valueOut.map
          ValueOut.value) = some Readout.na) ∧
    (isDefinedAndNotNull v = false →
      updateData st (some (ts, v)) surfaces ia = noMutations) ∧
    updateData st none surfaces ia = noMutations := by
  refine ⟨fun hdef hnum => ⟨?_, ?_⟩, fun hdef => ?_, rfl⟩
  · simp [updateData, hdef, hnum]
  · simp [updateData, updateValueElement, hdef, hnum]
  · simp [updateData, hdef]

/-- Witness for the amended C3 at the measurement value `"foo"` and an
absent measurement, on the example configuration. -/
theorem invalidMeasurement_handling_witness :
    ((updateData exampleCore (some (5, JSValue.str "foo"))
        [{ isLiquid := true }] false).svgOut =
      some (updateSvg exampleCore 0 [{ isLiquid := true }] false) ∧
    ((updateData exampleCore (some (5, JSValue.str "foo"))
        [{ isLiquid := true }] false).valueOut.map ValueOut.value) =
      some Readout.na) ∧
    updateData exampleCore none [{ isLiquid := true }] false = noMutations := by
  have h := invalidMeasurement_handling exampleCore 5 (JSValue.str "foo")
    [{ isLiquid := true }] false
  exact ⟨h.1 rfl rfl, h.2.2⟩

/-- C4: for a defined but non-numeric measurement value, the geometry is
evaluated at percentage 0 while the readout is the `N/A` marker (which is
distinct from the numeric readout 0); the geometry percentage and the
readout are separate outputs. -/
theorem nonNumeric_zero_geometry (st : WidgetCore) (ts : ℚ) (v : JSValue)
    (surfaces : List SurfaceElem) (ia : Bool)
    (hdef : isDefinedAndNotNull v = true) (hnum : isNumber v = false) :
    (updateData st (some (ts, v)) surfaces ia).svgOut =
        some (updateSvg st 0 surfaces ia) ∧
    (updateData st (some (ts, v)) surfaces ia).valueOut =
        some (updateValueElement st v 0) ∧
    (updateValueElement st v 0).value = Readout.na ∧
    Readout.na ≠ Readout.num 0 := by
  refine ⟨?_, ?_, ?_, by simp⟩
  · simp [updateData, hdef, hnum]
  · simp [updateData, hdef, hnum]
  · simp [updateValueElement, hnum]

/-- Witness for C4 at the measurement value `"foo"` on the example
configuration. -/
theorem nonNumeric_zero_geometry_witness :
    (updateData exampleCore (some (7, JSValue.str "foo"))
        [{ isLiquid := false }] true).svgOut =
        some (updateSvg exampleCore 0 [{ isLiquid := false }] true) ∧
    (updateData exampleCore (some (7, JSValue.str "foo"))
        [{ isLiquid := false }] true).valueOut =
        some (updateValueElement exampleCore (JSValue.str "foo") 0) ∧
    (updateValueElement exampleCore (JSValue.str "foo") 0).value =
      Readout.na ∧
    Readout.na ≠ Readout.num 0 :=
  nonNumeric_zero_geometry exampleCore 7 (JSValue.str "foo")
    [{ isLiquid := false }] true rfl rfl

/-- C5: a tick whose measurement is absent, or whose value is undefined or
null, performs no visual mutation at all — the `updateData` output is
exactly the no-mutation output. -/
theorem nullMeasurement_aborts (st : WidgetCore) (data : Option (ℚ × JSValue))
    (surfaces : List SurfaceElem) (ia : Bool)
    (h : data = none ∨
      ∃ ts v, data = some (ts, v) ∧ isDefinedAndNotNull v = false) :
    updateData st data surfaces ia = noMutations := by
  rcases h with h | ⟨ts, v, hd, hv⟩
  · subst h; rfl
  · subst hd; simp [updateData, hv]

/-- Witness for C5 with the concrete null-valued measurement `[5, null]`
on the example configuration. -/
theorem nullMeasurement_aborts_witness :
    updateData exampleCore (some (5, JSValue.null)) [{ isLiquid := true }]
      false = noMutations :=
  nullMeasurement_aborts exampleCore (some (5, JSValue.null))
    [{ isLiquid := true }] false (Or.inr ⟨5, JSValue.null, rfl, rfl⟩)

/-- C6: with the placeholder entity identity no fetch is issued — the shape
resolves to the statically configured shape and the secondary values to the
static constants; and the secondary values also resolve statically with no
fetch whenever neither volume nor units is attribute-driven. -/
theorem nullEntity_static_resolution (settings : LevelCardWidgetSettings)
    (entityId : EntityId)
    (fetchShape : List String → List (String × Shapes))
    (fetchSecondary : List String →
      List (String × ℚ) × List (String × CapacityUnits)) :
    (entityId.id = NULL_UUID →
      getShape settings entityId fetchShape = ([], settings.selectedShape) ∧
      getSecondaryResources settings entityId fetchSecondary =
        ([], settings.volumeConstant, settings.units)) ∧
    (settings.volumeSource = LiquidWidgetDataSourceType.static ∧
        settings.widgetUnitsSource = LiquidWidgetDataSourceType.static →
      getSecondaryResources settings entityId fetchSecondary =
        ([], settings.volumeConstant, settings.units)) := by
  constructor
  · intro h
    constructor
    · simp [getShape, h]
    · simp [getSecondaryResources, h]
  · intro h
    have hnames : prepareAttributeNames settings = [] := by
      simp [prepareAttributeNames, h.1, h.2]
    simp [getSecondaryResources, hnames]

/-- Witness for C6 on the example configuration bound to the placeholder
entity. -/
theorem nullEntity_static_resolution_witness :
    (getShape exampleCore.settings ⟨"DEVICE", NULL_UUID⟩ (fun _ => []) =
      ([], exampleCore.settings.selectedShape) ∧
    getSecondaryResources exampleCore.settings ⟨"DEVICE", NULL_UUID⟩
        (fun _ => ([], [])) =
      ([], exampleCore.settings.volumeConstant, exampleCore.settings.units)) ∧
    getSecondaryResources exampleCore.settings ⟨"DEVICE", NULL_UUID⟩
        (fun _ => ([], [])) =
      ([], exampleCore.settings.volumeConstant, exampleCore.settings.units) := by
  have h := nullEntity_static_resolution exampleCore.settings
    ⟨"DEVICE", NULL_UUID⟩ (fun _ => []) (fun _ => ([], []))
  exact ⟨h.1 rfl, h.2 ⟨rfl, rfl⟩⟩

/-- C7: when the `svgMapping` lookup for the resolved shape yields no
template, `getData` yields `null`, the initialization leaves the instance
un-rendered, and every `update` call on an un-rendered instance performs no
visual mutation — the no-render state is terminal. -/
theorem missingTemplate_no_render (loadSVG : String → String)
    (secondary : ℚ × CapacityUnits) (st : WidgetCore)
    (data : Option (ℚ × JSValue)) (surfaces : List SurfaceElem) (ia : Bool) :
    getData none loadSVG secondary = none ∧
    ngOnInitApply { svgRendered := false } (getData none loadSVG secondary) =
      { svgRendered := false } ∧
    update { svgRendered := false } st data surfaces ia = noMutations := by
  exact ⟨rfl, rfl, rfl⟩

/-- C9: the tooltip content builder called without a measurement treats the
value as `N/A` (no unit conversion is attempted, and the level row, when
shown, renders `N/A`) and updates the date-format collaborator with
timestamp 0. -/
theorem tooltip_absent_measurement (st : WidgetCore) :
    (getTooltipContent st none).tooltipValue = Readout.na ∧
    (getTooltipContent st none).conversionAttempted = false ∧
    (getTooltipContent st none).dateUpdatedWith = 0 ∧
    (st.settings.showTooltipLevel = true →
      (getTooltipContent st none).levelRow = some Readout.na) := by
  refine ⟨rfl, rfl, rfl, fun h => ?_⟩
  simp [getTooltipContent, isNumber, h]

/-- Witness for C9 on the example configuration, whose level row is
enabled. -/
theorem tooltip_absent_measurement_witness :
    (getTooltipContent exampleCore none).tooltipValue = Readout.na ∧
    (getTooltipContent exampleCore none).conversionAttempted = false ∧
    (getTooltipContent exampleCore none).dateUpdatedWith = 0 ∧
    (getTooltipContent exampleCore none).levelRow = some Readout.na := by
  have h := tooltip_absent_measurement exampleCore
  exact ⟨h.1, h.2.1, h.2.2.1, h.2.2.2 rfl⟩

/-- C10: every liquid-surface element moves via the `cy` attribute for the
vertical cylinder and via `y` for every other shape, the fill body always
moves via `y`, and all moves target the same coordinate. -/
theorem updateLevel_attrs (shape : Shapes) (newY percentage : ℚ)
    (surfaces : List SurfaceElem) (ia : Bool) :
    (updateLevel shape newY percentage surfaces ia).fillMove =
      { attr := "y", pos := newY } ∧
    ∀ m ∈ (updateLevel shape newY percentage surfaces ia).surfaceMoves,
      m.attr = (if shape = Shapes.vCylinder then "cy" else "y") ∧
      m.pos = newY := by
  constructor
  · rfl
  · intro m hm
    simp only [updateLevel, List.mem_map] at hm
    obtain ⟨e, _, he⟩ := hm
    by_cases h : shape = Shapes.vCylinder
    · subst h
      simp at he
      simp [← he]
    · simp [h] at he
      simp [← he, h]

/-- Witness for C10: the single surface of a vertical cylinder moves via
`cy` to the target coordinate 100. -/
theorem updateLevel_attrs_witness :
    ({ attr := "cy", pos := 100 } : Move).attr =
      (if Shapes.vCylinder = Shapes.vCylinder then "cy" else "y") ∧
    ({ attr := "cy", pos := 100 } : Move).pos = (100 : ℚ) :=
  (updateLevel_attrs Shapes.vCylinder 100 50 [{ isLiquid := true }] false).2
    { attr := "cy", pos := 100 } (by simp [updateLevel])

/-- Witness for C8 at the vertical-cylinder limits (180, 20): endpoints are
exact and the map is antitone on [0, 100]. -/
theorem calculatePosition_monotone_witness :
    calculatePosition 0 ⟨180, 20⟩ = (180 : ℚ) ∧
    calculatePosition 100 ⟨180, 20⟩ = (20 : ℚ) ∧
    AntitoneOn (fun p => calculatePosition p ⟨180, 20⟩) (Set.Icc 0 100) := by
  have h := calculatePosition_monotone ⟨180, 20⟩ (by norm_num)
  exact ⟨h.1, h.2.1, h.2.2.2 (by norm_num)⟩

end LiquidLevel
